import Mathlib

/-!
Verification development for the git-search repository's background-task core:
the chunk splitter, fan-out summarizer, stage reconciler, batch coordinator,
pipeline driver error boundary, and the tweet-posting counters.

Shallow embedding notes:
* Python `str` values that are sliced by index are modelled as `List Char`;
  status/summary strings that are only carried around are modelled as `String`.
* Python integers are `Nat` (no value in scope can go negative).
* Fallible external calls (the Gemini oracle, the database) are modelled as
  `Except String _` outcomes supplied as parameters.
-/

namespace GitSearch

/-! ### Chunk splitter (`GeminiAIService.chunk_text`, gemini_ai.py lines 117-167) -/

/-- Python slice `s[a:b]` for `0 ≤ a, b`: indices are clamped to the string. -/
def pySlice (s : List Char) (a b : Nat) : List Char :=
  (s.take b).drop a

/-- Does pattern `p` occur in `s` starting at index `i`? -/
def matchesAt (s p : List Char) (i : Nat) : Bool :=
  p.isPrefixOf (s.drop i)

/-- Search downward from index `i` for the last occurrence of `p` in `s`. -/
def rfindFrom (s p : List Char) : Nat → Option Nat
  | 0 => if matchesAt s p 0 then some 0 else none
  | i + 1 => if matchesAt s p (i + 1) then some (i + 1) else rfindFrom s p i

/-- Python `s.rfind(p)`: index of the last occurrence of `p` in `s`
(`none` for Python's `-1`). -/
def rfind (s p : List Char) : Option Nat :=
  rfindFrom s p s.length

/-- The priority-ordered break patterns of `chunk_text` (gemini_ai.py 138-151). -/
def breakPatterns : List (List Char) :=
  [("\n\n").toList, ("\n=").toList, ("\n-").toList, ("\nFILE:").toList,
   ("\nclass ").toList, ("\nfunction ").toList, ("\nexport ").toList,
   ("\nimport ").toList, ("\n\x7d").toList, ("\n").toList,
   (". ").toList, (" ").toList]

/-- The inner `for pattern in break_patterns` loop (gemini_ai.py 153-162):
the first pattern that occurs in the search window moves the cut to just after
its last occurrence; otherwise the cut stays at the raw boundary `endIndex`. -/
def findBreakPoint (searchText : List Char) (searchStart endIndex : Nat) : Nat :=
  match breakPatterns.findSome?
      (fun p => (rfind searchText p).map (fun lo => searchStart + lo + p.length)) with
  | some bp => bp
  | none => endIndex

/-- One iteration of the `while` loop of `chunk_text`: the final `end_index`
chosen for the chunk that starts at `cur`.  `int(max_chars_per_chunk * 0.1)`
is modelled as `maxChars / 10` (Nat floor division), which is the value the
float expression takes for every realistic chunk size. -/
def chunkEnd (text : List Char) (maxChars cur : Nat) : Nat :=
  if cur + maxChars < text.length then
    findBreakPoint
      (pySlice text (cur + maxChars - maxChars / 10) (cur + maxChars))
      (cur + maxChars - maxChars / 10) (cur + maxChars)
  else cur + maxChars

/-- The `while current_index < len(text)` loop of `chunk_text`
(gemini_ai.py 128-165).  The guard `cur < chunkEnd text maxChars cur` always
holds when `maxChars ≥ 1`; its `else` branch marks the input on which the
source loops forever (non-positive chunk size). -/
def chunkLoop (text : List Char) (maxChars : Nat) (cur : Nat) : List (List Char) :=
  if _h : cur < text.length then
    if _h2 : cur < chunkEnd text maxChars cur then
      pySlice text cur (chunkEnd text maxChars cur) ::
        chunkLoop text maxChars (chunkEnd text maxChars cur)
    else []
  else []
termination_by text.length - cur
decreasing_by omega

/-- `GeminiAIService.chunk_text` (gemini_ai.py 117-167). -/
def chunk_text (text : List Char) (max_chars_per_chunk : Nat) : List (List Char) :=
  if text.length ≤ max_chars_per_chunk then [text]
  else chunkLoop text max_chars_per_chunk 0

/-! #### Splitter lemmas -/

theorem isPrefixOf_length_le : ∀ (p l : List Char), p.isPrefixOf l = true → p.length ≤ l.length
  | [], _, _ => Nat.zero_le _
  | _ :: _, [], h => by simp [List.isPrefixOf] at h
  | a :: as, b :: bs, h => by
    simp only [List.isPrefixOf, Bool.and_eq_true] at h
    simpa using isPrefixOf_length_le as bs h.2

theorem rfindFrom_some {s p : List Char} :
    ∀ {i lo : Nat}, rfindFrom s p i = some lo → matchesAt s p lo = true := by
  intro i
  induction i with
  | zero =>
    intro lo h
    by_cases hm : matchesAt s p 0 = true
    · simp [rfindFrom, hm] at h; simpa [← h] using hm
    · simp [rfindFrom, hm] at h
  | succ i ih =>
    intro lo h
    by_cases hm : matchesAt s p (i + 1) = true
    · simp [rfindFrom, hm] at h; simpa [← h] using hm
    · simp [rfindFrom, hm] at h; exact ih h

theorem rfind_le {s p : List Char} {lo : Nat} (hp : 0 < p.length)
    (h : rfind s p = some lo) : lo + p.length ≤ s.length := by
  have hm := rfindFrom_some h
  unfold matchesAt at hm
  have hlen := isPrefixOf_length_le _ _ hm
  rw [List.length_drop] at hlen
  omega

theorem findSome?_exists {α β : Type} {f : α → Option β} {b : β} :
    ∀ {l : List α}, l.findSome? f = some b → ∃ a ∈ l, f a = some b := by
  intro l
  induction l with
  | nil => intro h; simp [List.findSome?] at h
  | cons a as ih =>
    intro h
    cases hfa : f a with
    | none =>
      rw [List.findSome?_cons, hfa] at h
      obtain ⟨x, hx, hfx⟩ := ih h
      exact ⟨x, List.mem_cons_of_mem _ hx, hfx⟩
    | some v =>
      rw [List.findSome?_cons] at h
      simp only [hfa] at h
      exact ⟨a, List.mem_cons_self _ _, by rw [hfa, h]⟩

theorem breakPatterns_pos : ∀ p ∈ breakPatterns, 0 < p.length := by decide

theorem findBreakPoint_bounds (st : List Char) (ss ei : Nat)
    (hst : st.length = ei - ss) (hss : ss ≤ ei) :
    (findBreakPoint st ss ei = ei) ∨
      (ss + 1 ≤ findBreakPoint st ss ei ∧ findBreakPoint st ss ei ≤ ei) := by
  unfold findBreakPoint
  cases hfs : breakPatterns.findSome?
      (fun p => (rfind st p).map (fun lo => ss + lo + p.length)) with
  | none => exact Or.inl rfl
  | some bp =>
    right
    show ss + 1 ≤ bp ∧ bp ≤ ei
    obtain ⟨p, hpmem, hp⟩ := findSome?_exists hfs
    cases hlo : rfind st p with
    | none => simp [hlo] at hp
    | some lo =>
      simp only [hlo, Option.map_some', Option.some.injEq] at hp
      have hppos := breakPatterns_pos p hpmem
      have hle := rfind_le hppos hlo
      omega

theorem chunkEnd_bounds (text : List Char) (maxChars cur : Nat)
    (hm : 1 ≤ maxChars) (_hcur : cur < text.length) :
    cur < chunkEnd text maxChars cur ∧ chunkEnd text maxChars cur ≤ cur + maxChars := by
  unfold chunkEnd
  by_cases hei : cur + maxChars < text.length
  · simp only [hei, if_true]
    have hdiv : maxChars / 10 < maxChars := Nat.div_lt_self (by omega) (by omega)
    have hst : (pySlice text (cur + maxChars - maxChars / 10) (cur + maxChars)).length
        = (cur + maxChars) - (cur + maxChars - maxChars / 10) := by
      unfold pySlice
      rw [List.length_drop, List.length_take]
      omega
    have hb := findBreakPoint_bounds _ _ _ hst (by omega)
    rcases hb with hb | hb <;> omega
  · simp only [hei, if_false]
    omega

theorem chunkEnd_zero (text : List Char) (cur : Nat) (hcur : cur < text.length) :
    chunkEnd text 0 cur = cur := by
  unfold chunkEnd
  simp only [Nat.add_zero, Nat.zero_div, Nat.sub_zero, hcur, if_true]
  have hempty : pySlice text cur cur = [] := by
    unfold pySlice
    apply List.eq_nil_of_length_eq_zero
    rw [List.length_drop, List.length_take]
    omega
  rw [hempty]
  have hrf : ∀ p ∈ breakPatterns, rfind ([] : List Char) p = none := by decide
  unfold findBreakPoint
  rw [List.findSome?_eq_none_iff.mpr (fun p hp => by rw [hrf p hp]; rfl)]

theorem pySlice_append_drop (s : List Char) (a b : Nat) (hab : a ≤ b) :
    pySlice s a b ++ s.drop b = s.drop a := by
  unfold pySlice
  by_cases ha : a ≤ s.length
  · conv_rhs => rw [← List.take_append_drop b s]
    rw [List.drop_append_of_le_length (by rw [List.length_take]; omega)]
  · have h1 : (s.take b).drop a = [] :=
      List.drop_eq_nil_of_le (by rw [List.length_take]; omega)
    have h2 : s.drop b = [] := List.drop_eq_nil_of_le (by omega)
    have h3 : s.drop a = [] := List.drop_eq_nil_of_le (by omega)
    rw [h1, h2, h3]
    rfl

theorem chunkLoop_join (text : List Char) (maxChars : Nat) (hm : 1 ≤ maxChars) :
    ∀ n cur, text.length - cur ≤ n →
      (chunkLoop text maxChars cur).flatten = text.drop cur := by
  intro n
  induction n with
  | zero =>
    intro cur h
    have hc : ¬ cur < text.length := by omega
    rw [chunkLoop, dif_neg hc, List.drop_eq_nil_of_le (by omega)]
    rfl
  | succ n ih =>
    intro cur h
    by_cases hc : cur < text.length
    · have hb := chunkEnd_bounds text maxChars cur hm hc
      rw [chunkLoop, dif_pos hc, dif_pos hb.1]
      rw [List.flatten_cons, ih (chunkEnd text maxChars cur) (by omega)]
      exact pySlice_append_drop text cur (chunkEnd text maxChars cur) (by omega)
    · rw [chunkLoop, dif_neg hc, List.drop_eq_nil_of_le (by omega)]
      rfl

theorem chunkLoop_bound (text : List Char) (maxChars : Nat) (hm : 1 ≤ maxChars) :
    ∀ n cur, text.length - cur ≤ n →
      ∀ c ∈ chunkLoop text maxChars cur, c.length ≤ maxChars := by
  intro n
  induction n with
  | zero =>
    intro cur h c hc
    have hcl : ¬ cur < text.length := by omega
    rw [chunkLoop, dif_neg hcl] at hc
    simp at hc
  | succ n ih =>
    intro cur h c hc
    by_cases hcl : cur < text.length
    · have hb := chunkEnd_bounds text maxChars cur hm hcl
      rw [chunkLoop, dif_pos hcl, dif_pos hb.1] at hc
      rcases List.mem_cons.mp hc with hc | hc
      · subst hc
        unfold pySlice
        rw [List.length_drop, List.length_take]
        omega
      · exact ih (chunkEnd text maxChars cur) (by omega) c hc
    · rw [chunkLoop, dif_neg hcl] at hc
      simp at hc

/-! #### Splitter claim theorems -/

/-- C1: for every input text and every chunk size `≥ 1`, concatenating the
chunks returned by `chunk_text` in index order yields exactly the original
text — no characters dropped, duplicated, or reordered. -/
theorem chunk_text_roundtrip (text : List Char) (m : Nat) (hm : 1 ≤ m) :
    (chunk_text text m).flatten = text := by
  unfold chunk_text
  by_cases hlen : text.length ≤ m
  · simp [hlen]
  · rw [if_neg hlen, chunkLoop_join text m hm text.length 0 (by omega), List.drop_zero]

theorem chunk_text_roundtrip_witness :
    (chunk_text (("hello world, hello splitter").toList) 5).flatten
      = ("hello world, hello splitter").toList :=
  chunk_text_roundtrip (("hello world, hello splitter").toList) 5 (by decide)

/-- C5: for every input text and every chunk size `≥ 1`, every chunk returned
by `chunk_text` has length `≤ max_chars_per_chunk`.  This holds
unconditionally: the chosen break point never lies past the raw
`current_index + max_chars_per_chunk` boundary, so the "except possibly"
boundary case allowed by the claim never occurs. -/
theorem chunk_text_bounded (text : List Char) (m : Nat) (hm : 1 ≤ m) :
    (chunk_text text m).all (fun c => c.length ≤ m) = true := by
  rw [List.all_eq_true]
  intro c hc
  simp only [decide_eq_true_eq]
  unfold chunk_text at hc
  by_cases hlen : text.length ≤ m
  · rw [if_pos hlen] at hc
    simp only [List.mem_singleton] at hc
    subst hc
    omega
  · rw [if_neg hlen] at hc
    exact chunkLoop_bound text m hm text.length 0 (by omega) c hc

theorem chunk_text_bounded_witness :
    (chunk_text (("hello world, hello splitter").toList) 5).all
      (fun c => c.length ≤ 5) = true :=
  chunk_text_bounded (("hello world, hello splitter").toList) 5 (by decide)

/-- C10: `chunk_text` terminates for every chunk size `≥ 1` because each
iteration of its while loop strictly increases `current_index`
(`cur < chunkEnd text m cur` whenever the loop guard holds), and the
precondition is essential: with chunk size `0` on non-empty input the
computed `end_index` equals `current_index`, so the loop never advances
(the source would loop forever). -/
theorem chunk_text_terminates :
    (∀ (text : List Char) (m cur : Nat), 1 ≤ m → cur < text.length →
        cur < chunkEnd text m cur) ∧
      (∀ (text : List Char) (cur : Nat), cur < text.length →
        chunkEnd text 0 cur = cur) :=
  ⟨fun text m cur hm hcur => (chunkEnd_bounds text m cur hm hcur).1,
   fun text cur hcur => chunkEnd_zero text cur hcur⟩

theorem chunk_text_terminates_witness :
    0 < chunkEnd (("abcdef").toList) 2 0 ∧ chunkEnd (("abcdef").toList) 0 0 = 0 :=
  ⟨chunk_text_terminates.1 (("abcdef").toList) 2 0 (by decide) (by decide),
   chunk_text_terminates.2 (("abcdef").toList) 0 (by decide)⟩

/-! ### Fan-out summarizer (`GeminiAIService.generate_chunk_summary` and
`GeminiAIService.generate_repository_summary`, gemini_ai.py 169-411)

Each Gemini call is modelled by its outcome: `chunkOracle i` is the outcome of
the `generate_content` call for chunk `i` and `aggOracle` the outcome of the
single final-aggregation `generate_content` call (the prompt strings fed to the
model do not influence any field a claim observes).  `generate_chunk_summary`
catches its exception and converts it into a placeholder result, exactly as
the `except` block at gemini_ai.py 213-229 does. -/

/-- The per-chunk result dictionary (gemini_ai.py 204-229). -/
structure ChunkSummary where
  chunk_index : Nat
  total_chunks : Nat
  summary : String
  character_count : Nat
  success : Bool
  error : Option String

/-- `GeminiAIService.generate_chunk_summary` (gemini_ai.py 169-229). -/
def generate_chunk_summary (chunk : List Char) (chunk_index total_chunks : Nat)
    (oracle : Except String String) : ChunkSummary :=
  match oracle with
  | .ok t =>
    { chunk_index := chunk_index + 1, total_chunks := total_chunks, summary := t,
      character_count := chunk.length, success := true, error := none }
  | .error e =>
    { chunk_index := chunk_index + 1, total_chunks := total_chunks,
      summary := "Chunk " ++ toString (chunk_index + 1) ++ " processing failed ("
        ++ e ++ "). This chunk contained " ++ toString chunk.length
        ++ " characters of repository content that could not be analyzed automatically.",
      character_count := chunk.length, success := false, error := some e }

/-- The result dictionary of `generate_repository_summary`
(success shape: gemini_ai.py 384-398; failure shape: 400-411). -/
structure SummaryResult where
  success : Bool
  summary : Option String
  error : Option String
  chunks_processed : Nat
  successful_chunks : Nat
  failed_chunks : Nat
  chunk_summaries : List ChunkSummary

/-- Did the oracle call succeed? -/
def isOkB (o : Except String String) : Bool :=
  match o with
  | .ok _ => true
  | .error _ => false

/-- The list comprehension `[generate_chunk_summary(chunk, index, len(chunks), ...)
for index, chunk in enumerate(chunks)]` (gemini_ai.py 289-294), with the
enumeration index carried explicitly. -/
def chunk_summaries_from (co : Nat → Except String String) (total : Nat) :
    Nat → List (List Char) → List ChunkSummary
  | _, [] => []
  | i, c :: cs =>
    generate_chunk_summary c i total (co i) :: chunk_summaries_from co total (i + 1) cs

/-- Number of failing oracle calls among chunk indices `i, i+1, ..., i+n-1`. -/
def failedCallsFrom (co : Nat → Except String String) : Nat → Nat → Nat
  | _, 0 => 0
  | i, n + 1 => (if isOkB (co i) then 0 else 1) + failedCallsFrom co (i + 1) n

/-- Number of failing per-chunk oracle calls for chunk indices `0..n-1`. -/
def failedCallCount (n : Nat) (co : Nat → Except String String) : Nat :=
  failedCallsFrom co 0 n

/-- The body of `generate_repository_summary` from the point where the chunk
list is known (gemini_ai.py 288-411), instrumented with the number of
final-aggregation oracle invocations (the second component). The outer
`try/except` converts both the all-chunks-failed `raise` (line 314) and a
failing aggregation call into the failure dictionary of lines 400-411. -/
def generate_repository_summary_core (chunks : List (List Char))
    (chunkOracle : Nat → Except String String) (aggOracle : Except String String) :
    SummaryResult × Nat :=
  let chunk_summaries := chunk_summaries_from chunkOracle chunks.length 0 chunks
  let successful_chunks := chunk_summaries.filter (fun c => c.success)
  let failed_chunks := chunk_summaries.filter (fun c => !c.success)
  if failed_chunks.length ≠ 0 ∧ failed_chunks.length = chunks.length then
    ({ success := false, summary := none,
       error := some ("All repository chunks failed to process"),
       chunks_processed := 0, successful_chunks := 0, failed_chunks := 0,
       chunk_summaries := [] }, 0)
  else
    match aggOracle with
    | .error e =>
      ({ success := false, summary := none, error := some e,
         chunks_processed := 0, successful_chunks := 0, failed_chunks := 0,
         chunk_summaries := [] }, 1)
    | .ok t =>
      ({ success := true, summary := some t, error := none,
         chunks_processed := chunks.length,
         successful_chunks := successful_chunks.length,
         failed_chunks := failed_chunks.length,
         chunk_summaries := chunk_summaries }, 1)

/-- `GeminiAIService.generate_repository_summary` (gemini_ai.py 231-411):
splits the input at 1.2M characters per chunk (line 285) and runs the
fan-out/aggregation core. -/
def generate_repository_summary (full_text : List Char)
    (chunkOracle : Nat → Except String String) (aggOracle : Except String String) :
    SummaryResult × Nat :=
  generate_repository_summary_core (chunk_text full_text 1200000) chunkOracle aggOracle

theorem failed_filter_length (co : Nat → Except String String) (total : Nat) :
    ∀ (cs : List (List Char)) (i : Nat),
      ((chunk_summaries_from co total i cs).filter (fun c => !c.success)).length
        = failedCallsFrom co i cs.length := by
  intro cs
  induction cs with
  | nil => intro i; rfl
  | cons c cs ih =>
    intro i
    cases hco : co i with
    | ok t =>
      simp [chunk_summaries_from, generate_chunk_summary, hco, failedCallsFrom,
        isOkB, ih]
    | error e =>
      simp [chunk_summaries_from, generate_chunk_summary, hco, failedCallsFrom,
        isOkB, ih]
      omega

/-- C2 (amended): with `N = chunks.length` and `k` failing per-chunk oracle
calls: if `1 ≤ k < N` the final aggregation call executes exactly once and,
provided the aggregation call itself succeeds, the result has `success=True`
with the failures visible only in the failed count (and per-chunk placeholder
results); if all `N ≥ 1` chunk calls fail, the result has `success=False` and
no aggregation call occurs. -/
theorem generate_repository_summary_partial_failure
    (chunks : List (List Char)) (co : Nat → Except String String)
    (agg : Except String String) :
    (1 ≤ failedCallCount chunks.length co →
      failedCallCount chunks.length co < chunks.length →
        (generate_repository_summary_core chunks co agg).2 = 1 ∧
        ∀ t, agg = Except.ok t →
          (generate_repository_summary_core chunks co agg).1.success = true ∧
          (generate_repository_summary_core chunks co agg).1.failed_chunks
            = failedCallCount chunks.length co) ∧
    (1 ≤ chunks.length →
      failedCallCount chunks.length co = chunks.length →
        (generate_repository_summary_core chunks co agg).1.success = false ∧
        (generate_repository_summary_core chunks co agg).2 = 0) := by
  have hk : ((chunk_summaries_from co chunks.length 0 chunks).filter
      (fun c => !c.success)).length = failedCallCount chunks.length co :=
    failed_filter_length co chunks.length chunks 0
  constructor
  · intro h1 h2
    have hcond : ¬ (((chunk_summaries_from co chunks.length 0 chunks).filter
        (fun c => !c.success)).length ≠ 0 ∧
        ((chunk_summaries_from co chunks.length 0 chunks).filter
          (fun c => !c.success)).length = chunks.length) := by
      rw [hk]; omega
    unfold generate_repository_summary_core
    rw [if_neg hcond]
    cases agg with
    | error e =>
      refine ⟨rfl, ?_⟩
      intro t ht
      cases ht
    | ok t0 =>
      refine ⟨rfl, ?_⟩
      intro t ht
      cases ht
      exact ⟨rfl, hk⟩
  · intro h1 h2
    have hcond : (((chunk_summaries_from co chunks.length 0 chunks).filter
        (fun c => !c.success)).length ≠ 0 ∧
        ((chunk_summaries_from co chunks.length 0 chunks).filter
          (fun c => !c.success)).length = chunks.length) := by
      rw [hk]; omega
    unfold generate_repository_summary_core
    rw [if_pos hcond]
    exact ⟨rfl, rfl⟩

/-- C2 counterexample: two chunks, exactly one failing per-chunk call
(`1 ≤ k < N`), but the aggregation oracle also fails; the aggregation call
executes exactly once, yet the returned result has `success = false`, not
`success = true` as the claim states. -/
theorem generate_repository_summary_partial_failure_counterexample :
    1 ≤ failedCallCount 2 (fun i => if i == 0
        then Except.error ("chunk oracle down") else Except.ok ("chunk summary")) ∧
    failedCallCount 2 (fun i => if i == 0
        then Except.error ("chunk oracle down") else Except.ok ("chunk summary")) < 2 ∧
    (generate_repository_summary_core [("a").toList, ("b").toList]
        (fun i => if i == 0
          then Except.error ("chunk oracle down") else Except.ok ("chunk summary"))
        (Except.error ("aggregation oracle down"))).2 = 1 ∧
    (generate_repository_summary_core [("a").toList, ("b").toList]
        (fun i => if i == 0
          then Except.error ("chunk oracle down") else Except.ok ("chunk summary"))
        (Except.error ("aggregation oracle down"))).1.success = false := by
  decide

theorem generate_repository_summary_partial_failure_witness :
    (generate_repository_summary_core [("a").toList, ("b").toList]
        (fun i => if i == 0
          then Except.error ("chunk oracle down") else Except.ok ("chunk summary"))
        (Except.ok ("aggregated summary"))).2 = 1 ∧
    (generate_repository_summary_core [("a").toList, ("b").toList]
        (fun i => if i == 0
          then Except.error ("chunk oracle down") else Except.ok ("chunk summary"))
        (Except.ok ("aggregated summary"))).1.success = true ∧
    (generate_repository_summary_core [("a").toList, ("b").toList]
        (fun i => if i == 0
          then Except.error ("chunk oracle down") else Except.ok ("chunk summary"))
        (Except.ok ("aggregated summary"))).1.failed_chunks
      = failedCallCount 2 (fun i => if i == 0
          then Except.error ("chunk oracle down") else Except.ok ("chunk summary")) := by
  have h := (generate_repository_summary_partial_failure
      [("a").toList, ("b").toList]
      (fun i => if i == 0
        then Except.error ("chunk oracle down") else Except.ok ("chunk summary"))
      (Except.ok ("aggregated summary"))).1 (by decide) (by decide)
  exact ⟨h.1, (h.2 ("aggregated summary") rfl).1, (h.2 ("aggregated summary") rfl).2⟩

/-- C4: when not all chunks failed, a failing final-aggregation oracle call is
fatal for the whole summarization operation: the result returned to the caller
has `success = false`, no summary, and carries the aggregation exception's
message, the aggregation call having run exactly once — unlike per-chunk
failures, which leave `success = true` when the aggregation call succeeds. -/
theorem aggregation_failure_fatal
    (chunks : List (List Char)) (co : Nat → Except String String)
    (hk : failedCallCount chunks.length co < chunks.length) :
    (∀ e : String,
      (generate_repository_summary_core chunks co (Except.error e)).1.success = false ∧
      (generate_repository_summary_core chunks co (Except.error e)).1.summary = none ∧
      (generate_repository_summary_core chunks co (Except.error e)).1.error = some e ∧
      (generate_repository_summary_core chunks co (Except.error e)).2 = 1) ∧
    (∀ t : String,
      (generate_repository_summary_core chunks co (Except.ok t)).1.success = true) := by
  have hkf : ((chunk_summaries_from co chunks.length 0 chunks).filter
      (fun c => !c.success)).length = failedCallCount chunks.length co :=
    failed_filter_length co chunks.length chunks 0
  have hcond : ¬ (((chunk_summaries_from co chunks.length 0 chunks).filter
      (fun c => !c.success)).length ≠ 0 ∧
      ((chunk_summaries_from co chunks.length 0 chunks).filter
        (fun c => !c.success)).length = chunks.length) := by
    rw [hkf]; omega
  constructor
  · intro e
    unfold generate_repository_summary_core
    rw [if_neg hcond]
    exact ⟨rfl, rfl, rfl, rfl⟩
  · intro t
    unfold generate_repository_summary_core
    rw [if_neg hcond]

theorem aggregation_failure_fatal_witness :
    (generate_repository_summary_core [("a").toList, ("b").toList]
        (fun i => if i == 0
          then Except.error ("chunk oracle down") else Except.ok ("chunk summary"))
        (Except.error ("agg down"))).1.success = false ∧
    (generate_repository_summary_core [("a").toList, ("b").toList]
        (fun i => if i == 0
          then Except.error ("chunk oracle down") else Except.ok ("chunk summary"))
        (Except.error ("agg down"))).1.error = some ("agg down") ∧
    (generate_repository_summary_core [("a").toList, ("b").toList]
        (fun i => if i == 0
          then Except.error ("chunk oracle down") else Except.ok ("chunk summary"))
        (Except.error ("agg down"))).2 = 1 := by
  have h := (aggregation_failure_fatal [("a").toList, ("b").toList]
      (fun i => if i == 0
        then Except.error ("chunk oracle down") else Except.ok ("chunk summary"))
      (by decide)).1 ("agg down")
  exact ⟨h.1, h.2.2.1, h.2.2.2⟩

/-! ### Stage reconciler (`comprehensive_repository_processing_task`,
background_tasks.py 1977-2138)

The reconciler reads a snapshot of the work-item artifact state from the
database and decides the next action.  Database reads are modelled as total
reads from the snapshot; text fields that Python truth-tests and `.strip()`s
are `Option (List Char)`. -/

/-- Python `s.strip()` (whitespace stripped from both ends). -/
def pyStrip (s : List Char) : List Char :=
  ((s.dropWhile Char.isWhitespace).reverse.dropWhile Char.isWhitespace).reverse

/-- Python truthiness of an optional string: falsy iff `None` or empty. -/
def pyFalsy : Option (List Char) → Bool
  | none => true
  | some s => s.isEmpty

/-- Python `not s or not s.strip()`: missing, empty, or whitespace-only. -/
def pyBlank : Option (List Char) → Bool
  | none => true
  | some s => (pyStrip s).isEmpty

/-- The fields of the latest repository-analysis record that the reconciler
inspects. -/
structure AnalysisRecord where
  tree_structure : Option (List Char)
  ai_summary : Option (List Char)
  description : Option (List Char)

/-- A document row; the reconciler only looks at its type. -/
structure DocumentRecord where
  document_type : List Char

/-- Snapshot of the work-item artifact state read from Persistence. -/
structure WorkItemState where
  repoExists : Bool
  analysis : Option AnalysisRecord
  documents : List DocumentRecord

/-- The four mutually exclusive decisions of the reconciler. -/
inductive NextAction
  | FULL_ANALYSIS
  | GENERATE_SUMMARY_AND_DESCRIPTION
  | GENERATE_DOCUMENTS
  | ALREADY_COMPLETE
deriving DecidableEq

/-- The decision sequence of `comprehensive_repository_processing_task`
(background_tasks.py 1992-2138), evaluated in source order:
repository unknown (1994) → no analysis (2013) → analysis missing
`tree_structure` (2037) → no document of type `repository_analysis` (2045-2053)
→ blank `ai_summary` or blank `description` (2076-2097) → no documents at all
(2080-2112) → already complete (2114-2138). -/
def comprehensive_next_action (st : WorkItemState) : NextAction :=
  if st.repoExists = false then NextAction.FULL_ANALYSIS
  else
    match st.analysis with
    | none => NextAction.FULL_ANALYSIS
    | some analysis =>
      if pyFalsy analysis.tree_structure then NextAction.FULL_ANALYSIS
      else if (st.documents.filter
          (fun d => d.document_type == ("repository_analysis").toList)).isEmpty then
        NextAction.FULL_ANALYSIS
      else if pyBlank analysis.ai_summary || pyBlank analysis.description then
        NextAction.GENERATE_SUMMARY_AND_DESCRIPTION
      else if st.documents.isEmpty then NextAction.GENERATE_DOCUMENTS
      else NextAction.ALREADY_COMPLETE

/-- C3: whenever the work item is unknown to Persistence or has no analysis
record at all, the reconciler decides `FULL_ANALYSIS`, regardless of the
summary/description/documents fields of the snapshot — analysis absence
dominates the decision order. -/
theorem no_analysis_forces_full_analysis (st : WorkItemState)
    (h : st.repoExists = false ∨ st.analysis = none) :
    comprehensive_next_action st = NextAction.FULL_ANALYSIS := by
  unfold comprehensive_next_action
  rcases h with h | h
  · rw [if_pos h]
  · by_cases hr : st.repoExists = false
    · rw [if_pos hr]
    · rw [if_neg hr, h]

theorem no_analysis_forces_full_analysis_witness :
    comprehensive_next_action
      { repoExists := true, analysis := none,
        documents := [{ document_type := ("repository_analysis").toList }] }
      = NextAction.FULL_ANALYSIS :=
  no_analysis_forces_full_analysis
    { repoExists := true, analysis := none,
      documents := [{ document_type := ("repository_analysis").toList }] }
    (Or.inr rfl)

/-- C6 counterexample: a state with an analysis carrying a tree structure, a
non-blank `ai_summary`, a non-blank `description`, and one document — but no
document of type `repository_analysis` — is decided `FULL_ANALYSIS`, not
`ALREADY_COMPLETE` as the claim states. -/
theorem complete_state_counterexample :
    pyFalsy (some (("tree").toList)) = false ∧
    pyBlank (some (("summary text").toList)) = false ∧
    pyBlank (some (("short description").toList)) = false ∧
    ({ repoExists := true,
       analysis := some { tree_structure := some (("tree").toList),
                          ai_summary := some (("summary text").toList),
                          description := some (("short description").toList) },
       documents := [{ document_type := ("readme").toList }] } : WorkItemState).documents.length
      = 1 ∧
    comprehensive_next_action
      { repoExists := true,
        analysis := some { tree_structure := some (("tree").toList),
                           ai_summary := some (("summary text").toList),
                           description := some (("short description").toList) },
        documents := [{ document_type := ("readme").toList }] }
      = NextAction.FULL_ANALYSIS := by
  decide

/-- C6 (amended): a state with an analysis, a tree structure, a non-blank
`ai_summary`, a non-blank `description`, and at least one document of type
`repository_analysis` is decided `ALREADY_COMPLETE`. -/
theorem complete_state_already_complete (st : WorkItemState) (a : AnalysisRecord)
    (h1 : st.repoExists = true) (h2 : st.analysis = some a)
    (h3 : pyFalsy a.tree_structure = false)
    (h4 : pyBlank a.ai_summary = false) (h5 : pyBlank a.description = false)
    (h6 : (st.documents.filter
        (fun d => d.document_type == ("repository_analysis").toList)).isEmpty = false) :
    comprehensive_next_action st = NextAction.ALREADY_COMPLETE := by
  have hdocs : st.documents.isEmpty = false := by
    cases hd : st.documents with
    | nil => rw [hd] at h6; simp at h6
    | cons d ds => rfl
  unfold comprehensive_next_action
  rw [if_neg (by rw [h1]; simp), h2]
  simp only [h3, h4, h5, h6, hdocs, Bool.or_self, Bool.false_eq_true, if_false]

theorem complete_state_already_complete_witness :
    comprehensive_next_action
      { repoExists := true,
        analysis := some { tree_structure := some (("tree").toList),
                           ai_summary := some (("summary text").toList),
                           description := some (("short description").toList) },
        documents := [{ document_type := ("repository_analysis").toList }] }
      = NextAction.ALREADY_COMPLETE :=
  complete_state_already_complete
    { repoExists := true,
      analysis := some { tree_structure := some (("tree").toList),
                         ai_summary := some (("summary text").toList),
                         description := some (("short description").toList) },
      documents := [{ document_type := ("repository_analysis").toList }] }
    { tree_structure := some (("tree").toList),
      ai_summary := some (("summary text").toList),
      description := some (("short description").toList) }
    rfl rfl (by decide) (by decide) (by decide) (by decide)

/-! ### Batch coordinator (`batch_process_repositories_task`,
background_tasks.py 875-972)

Each repository id is modelled by the outcome of its processing:
not found in the database / task-creation raised (counted during the creation
loop, lines 904-930), or the awaited task's registry status after `await task`
(lines 933-955). -/

/-- Outcome of one repository in the batch. -/
inductive RepoOutcome
  | notFound
  | createError
  | taskSuccess
  | taskFailure
  | awaitError
deriving DecidableEq

/-- Counters accumulated by the batch loop, plus (as instrumentation) the
length of each consecutive window slice the coordinator awaited. -/
structure BatchCounters where
  processed_count : Nat
  successful_count : Nat
  failed_count : Nat
  window_sizes : List Nat

/-- Is the repository counted already in the creation loop (not found, or task
creation raised), never reaching the await loop? -/
def isImmediateSkip : RepoOutcome → Bool
  | RepoOutcome.notFound => true
  | RepoOutcome.createError => true
  | _ => false

/-- The task-creation loop over one window (background_tasks.py 900-930):
repositories that are missing or whose task creation raises are counted as
processed+failed immediately; the rest become awaited tasks. -/
def processCreationPhase (w : List RepoOutcome) (c : BatchCounters) : BatchCounters :=
  w.foldl
    (fun acc o =>
      if isImmediateSkip o then
        { acc with processed_count := acc.processed_count + 1,
                   failed_count := acc.failed_count + 1 }
      else acc) c

/-- The await loop over one window's created tasks (background_tasks.py
933-955): a task whose registry status is SUCCESS counts as successful; any
other status, or an exception from the await, counts as failed; every awaited
task counts as processed. -/
def processAwaitPhase (w : List RepoOutcome) (c : BatchCounters) : BatchCounters :=
  (w.filter (fun o => !(isImmediateSkip o))).foldl
    (fun acc o =>
      match o with
      | RepoOutcome.taskSuccess =>
        { acc with processed_count := acc.processed_count + 1,
                   successful_count := acc.successful_count + 1 }
      | _ =>
        { acc with processed_count := acc.processed_count + 1,
                   failed_count := acc.failed_count + 1 }) c

/-- `for i in range(0, len(ids), max_concurrent): ids[i : i + max_concurrent]`
(background_tasks.py 891-892): the consecutive windows of the batch.  Python
raises `ValueError` on step `0`; that degenerate case returns `[]` here. -/
def windowsOf (k : Nat) (xs : List RepoOutcome) : List (List RepoOutcome) :=
  if h : xs = [] ∨ k = 0 then []
  else xs.take k :: windowsOf k (xs.drop k)
termination_by xs.length
decreasing_by
  rw [List.length_drop]
  have hxs : xs ≠ [] := fun hh => h (Or.inl hh)
  have hk : k ≠ 0 := fun hh => h (Or.inr hh)
  have := List.length_pos.mpr hxs
  omega

/-- `batch_process_repositories_task` (background_tasks.py 875-968): processes
the windows sequentially, accumulating the counters. -/
def batch_process_repositories (outcomes : List RepoOutcome) (max_concurrent : Nat) :
    BatchCounters :=
  (windowsOf max_concurrent outcomes).foldl
    (fun c w =>
      let c2 := processAwaitPhase w (processCreationPhase w c)
      { c2 with window_sizes := c2.window_sizes ++ [w.length] })
    { processed_count := 0, successful_count := 0, failed_count := 0, window_sizes := [] }

/-- Number of repositories in a window that never reach the await loop. -/
def skipCount : List RepoOutcome → Nat
  | [] => 0
  | o :: os => (if isImmediateSkip o then 1 else 0) + skipCount os

theorem creation_phase_spec (w : List RepoOutcome) :
    ∀ c : BatchCounters,
      (processCreationPhase w c).processed_count = c.processed_count + skipCount w ∧
      (processCreationPhase w c).failed_count = c.failed_count + skipCount w ∧
      (processCreationPhase w c).successful_count = c.successful_count ∧
      (processCreationPhase w c).window_sizes = c.window_sizes := by
  induction w with
  | nil => intro c; simp [processCreationPhase, skipCount]
  | cons o os ih =>
    intro c
    have hsc : skipCount (o :: os) = (if isImmediateSkip o then 1 else 0) + skipCount os :=
      rfl
    by_cases ho : isImmediateSkip o = true
    · have hstep : processCreationPhase (o :: os) c
          = processCreationPhase os
            { c with processed_count := c.processed_count + 1,
                     failed_count := c.failed_count + 1 } := by
        show processCreationPhase os (if isImmediateSkip o then _ else c) = _
        rw [if_pos ho]
      obtain ⟨e1, e2, e3, e4⟩ := ih { c with processed_count := c.processed_count + 1,
                                             failed_count := c.failed_count + 1 }
      rw [hstep, e1, e2, e3, e4, hsc, if_pos ho]
      refine ⟨?_, ?_, rfl, rfl⟩
      · show c.processed_count + 1 + skipCount os = c.processed_count + (1 + skipCount os)
        omega
      · show c.failed_count + 1 + skipCount os = c.failed_count + (1 + skipCount os)
        omega
    · have hstep : processCreationPhase (o :: os) c = processCreationPhase os c := by
        show processCreationPhase os (if isImmediateSkip o then _ else c) = _
        rw [if_neg ho]
      obtain ⟨e1, e2, e3, e4⟩ := ih c
      rw [hstep, e1, e2, e3, e4, hsc, if_neg ho]
      refine ⟨by omega, by omega, rfl, rfl⟩

theorem await_fold_spec (l : List RepoOutcome) :
    ∀ c : BatchCounters,
      (l.foldl
        (fun acc o =>
          match o with
          | RepoOutcome.taskSuccess =>
            { acc with processed_count := acc.processed_count + 1,
                       successful_count := acc.successful_count + 1 }
          | _ =>
            { acc with processed_count := acc.processed_count + 1,
                       failed_count := acc.failed_count + 1 }) c).processed_count
          = c.processed_count + l.length ∧
      (l.foldl
        (fun acc o =>
          match o with
          | RepoOutcome.taskSuccess =>
            { acc with processed_count := acc.processed_count + 1,
                       successful_count := acc.successful_count + 1 }
          | _ =>
            { acc with processed_count := acc.processed_count + 1,
                       failed_count := acc.failed_count + 1 }) c).successful_count
        + (l.foldl
        (fun acc o =>
          match o with
          | RepoOutcome.taskSuccess =>
            { acc with processed_count := acc.processed_count + 1,
                       successful_count := acc.successful_count + 1 }
          | _ =>
            { acc with processed_count := acc.processed_count + 1,
                       failed_count := acc.failed_count + 1 }) c).failed_count
          = c.successful_count + c.failed_count + l.length ∧
      (l.foldl
        (fun acc o =>
          match o with
          | RepoOutcome.taskSuccess =>
            { acc with processed_count := acc.processed_count + 1,
                       successful_count := acc.successful_count + 1 }
          | _ =>
            { acc with processed_count := acc.processed_count + 1,
                       failed_count := acc.failed_count + 1 }) c).window_sizes
          = c.window_sizes := by
  induction l with
  | nil => intro c; simp
  | cons o os ih =>
    intro c
    simp only [List.foldl_cons, List.length_cons]
    cases o <;>
      · refine ⟨?_, ?_, ?_⟩
        · rw [(ih _).1]; dsimp only; omega
        · rw [(ih _).2.1]; dsimp only; omega
        · rw [(ih _).2.2]

theorem filter_skip_length (w : List RepoOutcome) :
    (w.filter (fun o => !(isImmediateSkip o))).length + skipCount w = w.length := by
  induction w with
  | nil => rfl
  | cons o os ih =>
    cases ho : isImmediateSkip o <;>
      simp [List.filter_cons, skipCount, ho] <;> omega

theorem window_step_spec (w : List RepoOutcome) (c : BatchCounters) :
    (processAwaitPhase w (processCreationPhase w c)).processed_count
        = c.processed_count + w.length ∧
    (processAwaitPhase w (processCreationPhase w c)).successful_count
        + (processAwaitPhase w (processCreationPhase w c)).failed_count
        = c.successful_count + c.failed_count + w.length ∧
    (processAwaitPhase w (processCreationPhase w c)).window_sizes = c.window_sizes := by
  have hcr := creation_phase_spec w c
  have hfl := filter_skip_length w
  unfold processAwaitPhase
  have haw := await_fold_spec (w.filter (fun o => !(isImmediateSkip o)))
      (processCreationPhase w c)
  refine ⟨?_, ?_, ?_⟩
  · rw [haw.1, hcr.1]; omega
  · rw [haw.2.1, hcr.2.1, hcr.2.2.1]; omega
  · rw [haw.2.2, hcr.2.2.2]

theorem batch_fold_spec (ws : List (List RepoOutcome)) :
    ∀ c : BatchCounters,
      c.processed_count = c.successful_count + c.failed_count →
      (ws.foldl
        (fun c w =>
          let c2 := processAwaitPhase w (processCreationPhase w c)
          { c2 with window_sizes := c2.window_sizes ++ [w.length] }) c).processed_count
          = c.processed_count + (ws.map List.length).sum ∧
      (ws.foldl
        (fun c w =>
          let c2 := processAwaitPhase w (processCreationPhase w c)
          { c2 with window_sizes := c2.window_sizes ++ [w.length] }) c).processed_count
        = (ws.foldl
        (fun c w =>
          let c2 := processAwaitPhase w (processCreationPhase w c)
          { c2 with window_sizes := c2.window_sizes ++ [w.length] }) c).successful_count
          + (ws.foldl
        (fun c w =>
          let c2 := processAwaitPhase w (processCreationPhase w c)
          { c2 with window_sizes := c2.window_sizes ++ [w.length] }) c).failed_count ∧
      (ws.foldl
        (fun c w =>
          let c2 := processAwaitPhase w (processCreationPhase w c)
          { c2 with window_sizes := c2.window_sizes ++ [w.length] }) c).window_sizes
          = c.window_sizes ++ ws.map List.length := by
  induction ws with
  | nil => intro c hc; simp [hc]
  | cons w ws ih =>
    intro c hc
    simp only [List.foldl_cons]
    have hstep := window_step_spec w c
    have hinv : (processAwaitPhase w (processCreationPhase w c)).processed_count
        = (processAwaitPhase w (processCreationPhase w c)).successful_count
          + (processAwaitPhase w (processCreationPhase w c)).failed_count := by
      rw [hstep.1, hstep.2.1, hc]
    have := ih { processAwaitPhase w (processCreationPhase w c) with
        window_sizes := (processAwaitPhase w (processCreationPhase w c)).window_sizes
          ++ [w.length] } hinv
    refine ⟨?_, this.2.1, ?_⟩
    · rw [this.1]
      simp only [List.map_cons, List.sum_cons]
      rw [hstep.1]
      omega
    · rw [this.2.2]
      simp [hstep.2.2]

theorem windowsOf_cons (k : Nat) (xs : List RepoOutcome)
    (hxs : xs ≠ []) (hk : k ≠ 0) :
    windowsOf k xs = xs.take k :: windowsOf k (xs.drop k) := by
  rw [windowsOf, dif_neg (by simp [hxs, hk])]

theorem windowsOf_nil (k : Nat) : windowsOf k [] = [] := by
  rw [windowsOf, dif_pos (Or.inl rfl)]

/-- C7: for a batch of 7 work items and concurrency window 3, the coordinator
awaits exactly the 3 consecutive windows of sizes `3, 3, 1` (the window slices
partition the input with no overlap), and the final counters satisfy
`processed = successful + failed = 7` regardless of which items succeed, fail,
or raise — no item's exception aborts the batch. -/
theorem batch_seven_items_window_three (outcomes : List RepoOutcome)
    (h : outcomes.length = 7) :
    (batch_process_repositories outcomes 3).window_sizes = [3, 3, 1] ∧
    (batch_process_repositories outcomes 3).processed_count = 7 ∧
    (batch_process_repositories outcomes 3).processed_count
      = (batch_process_repositories outcomes 3).successful_count
        + (batch_process_repositories outcomes 3).failed_count := by
  have h1 : outcomes ≠ [] := by intro hh; rw [hh] at h; simp at h
  have h2 : outcomes.drop 3 ≠ [] := by
    intro hh
    have := congrArg List.length hh
    rw [List.length_drop, h] at this
    simp at this
  have h3 : (outcomes.drop 3).drop 3 ≠ [] := by
    intro hh
    have := congrArg List.length hh
    rw [List.length_drop, List.length_drop, h] at this
    simp at this
  have h4 : ((outcomes.drop 3).drop 3).drop 3 = [] := by
    apply List.eq_nil_of_length_eq_zero
    rw [List.length_drop, List.length_drop, List.length_drop, h]
  have hwin : windowsOf 3 outcomes
      = [outcomes.take 3, (outcomes.drop 3).take 3, ((outcomes.drop 3).drop 3).take 3] := by
    rw [windowsOf_cons 3 outcomes h1 (by omega),
      windowsOf_cons 3 (outcomes.drop 3) h2 (by omega),
      windowsOf_cons 3 ((outcomes.drop 3).drop 3) h3 (by omega), h4, windowsOf_nil]
  have hlen : (windowsOf 3 outcomes).map List.length = [3, 3, 1] := by
    rw [hwin]
    simp only [List.map_cons, List.map_nil, List.length_take, List.length_drop, h]
    decide
  have hfold := batch_fold_spec (windowsOf 3 outcomes)
    { processed_count := 0, successful_count := 0, failed_count := 0, window_sizes := [] }
    rfl
  unfold batch_process_repositories
  refine ⟨?_, ?_, hfold.2.1⟩
  · rw [hfold.2.2, hlen]
    rfl
  · rw [hfold.1, hlen]
    rfl

theorem batch_seven_items_window_three_witness :
    (batch_process_repositories
        [RepoOutcome.taskSuccess, RepoOutcome.notFound, RepoOutcome.awaitError,
         RepoOutcome.taskFailure, RepoOutcome.taskSuccess, RepoOutcome.createError,
         RepoOutcome.taskSuccess] 3).window_sizes = [3, 3, 1] ∧
    (batch_process_repositories
        [RepoOutcome.taskSuccess, RepoOutcome.notFound, RepoOutcome.awaitError,
         RepoOutcome.taskFailure, RepoOutcome.taskSuccess, RepoOutcome.createError,
         RepoOutcome.taskSuccess] 3).processed_count = 7 ∧
    (batch_process_repositories
        [RepoOutcome.taskSuccess, RepoOutcome.notFound, RepoOutcome.awaitError,
         RepoOutcome.taskFailure, RepoOutcome.taskSuccess, RepoOutcome.createError,
         RepoOutcome.taskSuccess] 3).processed_count
      = (batch_process_repositories
        [RepoOutcome.taskSuccess, RepoOutcome.notFound, RepoOutcome.awaitError,
         RepoOutcome.taskFailure, RepoOutcome.taskSuccess, RepoOutcome.createError,
         RepoOutcome.taskSuccess] 3).successful_count
        + (batch_process_repositories
        [RepoOutcome.taskSuccess, RepoOutcome.notFound, RepoOutcome.awaitError,
         RepoOutcome.taskFailure, RepoOutcome.taskSuccess, RepoOutcome.createError,
         RepoOutcome.taskSuccess] 3).failed_count :=
  batch_seven_items_window_three
    [RepoOutcome.taskSuccess, RepoOutcome.notFound, RepoOutcome.awaitError,
     RepoOutcome.taskFailure, RepoOutcome.taskSuccess, RepoOutcome.createError,
     RepoOutcome.taskSuccess] (by decide)

/-! ### Pipeline driver error boundary (`analyze_repository_task`,
background_tasks.py 154-803)

The driver's body is one big `try`: first the repository row is fetched or
created, binding `repo_id` (lines 163-181, `establish`); then the remaining
awaited stages run in order (clone/analyze/persist/describe/fork, lines
184-772, `stages`), each able to raise; on success the registry record is set
to SUCCESS (761-768).  The `except` block (774-792) writes the work item's
`processing_status = FAILED` when `"repo_id" in locals()` and records FAILURE
with `str(e)` in the Task Registry, re-raising nothing.  Stages are abstracted
to their outcomes; the persistence writes performed inside the abstracted
stages are not tracked, only the skeleton's own writes. -/

/-- Task Registry statuses (task_models / background_tasks). -/
inductive TaskStatusM
  | PENDING
  | STARTED
  | SUCCESS
  | FAILURE
  | RETRY
deriving DecidableEq

/-- Repository `processing_status` values written by the driver skeleton. -/
inductive RepoProcStatus
  | PROCESSING
  | COMPLETED
  | FAILED
deriving DecidableEq

/-- Observable outcome of one `analyze_repository_task` run. -/
structure DriverResult where
  task_status : TaskStatusM
  task_error : Option String
  raised : Option String
  repo_status_writes : List RepoProcStatus

/-- The first exception raised by the sequence of awaited stages, if any. -/
def firstError : List (Except String Unit) → Option String
  | [] => none
  | Except.ok _ :: rest => firstError rest
  | Except.error e :: _ => some e

/-- `analyze_repository_task` (background_tasks.py 154-803) as a function of
the outcome of establishing the repository row and the outcomes of the
subsequent awaited stages. -/
def analyze_repository_task_model (establish : Except String Unit)
    (stages : List (Except String Unit)) : DriverResult :=
  match establish with
  | Except.error e =>
    { task_status := TaskStatusM.FAILURE, task_error := some e, raised := none,
      repo_status_writes := [] }
  | Except.ok _ =>
    match firstError stages with
    | some e =>
      { task_status := TaskStatusM.FAILURE, task_error := some e, raised := none,
        repo_status_writes := [RepoProcStatus.PROCESSING, RepoProcStatus.FAILED] }
    | none =>
      { task_status := TaskStatusM.SUCCESS, task_error := none, raised := none,
        repo_status_writes := [RepoProcStatus.PROCESSING, RepoProcStatus.COMPLETED] }

/-- The first exception observed anywhere during the driver's `try` body. -/
def driverFirstError (establish : Except String Unit)
    (stages : List (Except String Unit)) : Option String :=
  match establish with
  | Except.error e => some e
  | Except.ok _ => firstError stages

/-- C8: every exception raised by any stage of `analyze_repository_task` is
caught at the driver boundary: the Task Registry record becomes `FAILURE`
carrying the exception's message, nothing is re-raised to the caller, and —
when the error occurred after the repository row was established — the work
item's own `processing_status` is additionally set to `FAILED` by a second,
independent write. -/
theorem driver_error_boundary (establish : Except String Unit)
    (stages : List (Except String Unit)) (e : String)
    (h : driverFirstError establish stages = some e) :
    (analyze_repository_task_model establish stages).task_status = TaskStatusM.FAILURE ∧
    (analyze_repository_task_model establish stages).task_error = some e ∧
    (analyze_repository_task_model establish stages).raised = none ∧
    (∀ u : Unit, establish = Except.ok u →
      RepoProcStatus.FAILED ∈ (analyze_repository_task_model establish stages).repo_status_writes) := by
  cases establish with
  | error e0 =>
    simp only [driverFirstError, Option.some.injEq] at h
    subst h
    exact ⟨rfl, rfl, rfl, fun u hu => by cases hu⟩
  | ok u0 =>
    simp only [driverFirstError] at h
    unfold analyze_repository_task_model
    rw [h]
    refine ⟨rfl, rfl, rfl, ?_⟩
    intro u hu
    simp

theorem driver_error_boundary_witness :
    (analyze_repository_task_model (Except.ok ())
        [Except.ok (), Except.error ("clone failed")]).task_status
      = TaskStatusM.FAILURE ∧
    (analyze_repository_task_model (Except.ok ())
        [Except.ok (), Except.error ("clone failed")]).task_error
      = some ("clone failed") ∧
    (analyze_repository_task_model (Except.ok ())
        [Except.ok (), Except.error ("clone failed")]).raised = none ∧
    RepoProcStatus.FAILED ∈ (analyze_repository_task_model (Except.ok ())
        [Except.ok (), Except.error ("clone failed")]).repo_status_writes := by
  have h := driver_error_boundary (Except.ok ())
    [Except.ok (), Except.error ("clone failed")] ("clone failed") rfl
  exact ⟨h.1, h.2.1, h.2.2.1, h.2.2.2 () rfl⟩

/-! ### Tweet-posting counters (`post_repository_tweets_task`,
background_tasks.py 1179-1339)

The function initializes `processed_count`, `successful_posts`,
`failed_posts`, `rate_limited_posts` (lines 1262-1266) before the
per-repository loop, but `processed_repositories` — incremented at lines 1330
and 1338 — is assigned nowhere in the function, so it is an unbound local.
Python local scope is modelled by `Option Nat` slots; augmented assignment on
an unbound slot raises `UnboundLocalError`. -/

/-- The function's local counter slots (`none` = name not yet bound). -/
structure TweetTaskLocals where
  processed_count : Option Nat
  successful_posts : Option Nat
  failed_posts : Option Nat
  rate_limited_posts : Option Nat
  processed_repositories : Option Nat

/-- Python `x += 1` on a local integer slot: raises `UnboundLocalError` when
the name has not been bound. -/
def pyAugAssign : Option Nat → Except String (Option Nat)
  | none => Except.error ("UnboundLocalError")
  | some n => Except.ok (some (n + 1))

/-- The locals right after the initializations at background_tasks.py
1262-1266; `processed_repositories` has no initialization anywhere in
`post_repository_tweets_task`. -/
def tweetTaskInitialLocals : TweetTaskLocals :=
  { processed_count := some 0, successful_posts := some 0, failed_posts := some 0,
    rate_limited_posts := some 0, processed_repositories := none }

/-- One iteration of the per-repository loop (background_tasks.py 1275-1339)
up to the point where control leaves the excerpt.  `analysisOutcome` is the
outcome of the `get_latest_repository_analysis` lookup: `.error` if it raises,
otherwise the analysis's optional `description`.  The iteration executes
`processed_count += 1` (line 1277); when no usable description is found it
executes `failed_posts += 1; processed_repositories += 1` (lines 1329-1330),
and when the lookup raises it executes the same pair (lines 1337-1338);
otherwise it proceeds to the tweet-posting code. -/
def tweet_loop_iteration (env : TweetTaskLocals)
    (analysisOutcome : Except String (Option (List Char))) :
    Except String TweetTaskLocals :=
  match pyAugAssign env.processed_count with
  | Except.error e => Except.error e
  | Except.ok pc =>
    let env1 := { env with processed_count := pc }
    match analysisOutcome with
    | Except.ok desc =>
      if pyBlank desc then
        match pyAugAssign env1.failed_posts with
        | Except.error e => Except.error e
        | Except.ok fp =>
          match pyAugAssign env1.processed_repositories with
          | Except.error e => Except.error e
          | Except.ok pr =>
            Except.ok { env1 with failed_posts := fp, processed_repositories := pr }
      else Except.ok env1
    | Except.error _ =>
      match pyAugAssign env1.failed_posts with
      | Except.error e => Except.error e
      | Except.ok fp =>
        match pyAugAssign env1.processed_repositories with
        | Except.error e => Except.error e
        | Except.ok pr =>
          Except.ok { env1 with failed_posts := fp, processed_repositories := pr }

/-- C9: `processed_repositories` is never declared or initialized in
`post_repository_tweets_task` before its increments inside the loop, so for a
repository whose latest analysis has no non-blank description — and likewise
for one whose analysis lookup raises — the iteration evaluates
`processed_repositories += 1` on an unbound local and raises
`UnboundLocalError` instead of updating a counter. -/
theorem processed_repositories_unbound :
    tweetTaskInitialLocals.processed_repositories = none ∧
    tweet_loop_iteration tweetTaskInitialLocals (Except.ok none)
      = Except.error ("UnboundLocalError") ∧
    tweet_loop_iteration tweetTaskInitialLocals (Except.error ("lookup failed"))
      = Except.error ("UnboundLocalError") :=
  ⟨rfl, rfl, rfl⟩

end GitSearch
